import Mathlib

/-!
# Verification of the ppg-vitals signal-quality core

Shallow embedding of the windowed PPG signal-processing pipeline:
the linear detrender (`src/utils/detrend.js`), the FFT/PSD and band-SNR
computation (`src/utils/fft.js`), the quality helpers
(`src/utils/helpers.js`), the stateful `SignalProcessor`
(`src/SignalProcessor.js`) and the frame scheduler of
`PPGMonitor.computeFrame` (`src/PPGMonitor.js`).

JavaScript numbers are modelled as real numbers; where NaN propagation is
the property under study, a JS number is `Option ℝ` with `none` playing
the role of NaN, and comparisons follow IEEE semantics (every comparison
with NaN is false).  Machine `Math.round` is `⌊x + 1/2⌋`.
-/

namespace PPG

/-- A JavaScript number that may be NaN: `none` stands for NaN,
`some x` for the finite value `x` (idealised as a real). -/
abbrev JSNum := Option ℝ

noncomputable section

open Classical

/-- IEEE-style `<`: any comparison involving NaN is false. -/
def jlt : JSNum → JSNum → Bool
  | some a, some b => decide (a < b)
  | _, _ => false

/-- IEEE-style `>=`: any comparison involving NaN is false. -/
def jge : JSNum → JSNum → Bool
  | some a, some b => decide (b ≤ a)
  | _, _ => false

/-- IEEE-style `>`: any comparison involving NaN is false. -/
def jgt : JSNum → JSNum → Bool
  | some a, some b => decide (b < a)
  | _, _ => false

/-- `Math.round`: round half toward positive infinity. -/
def jsRound (x : ℝ) : ℤ := ⌊x + 1/2⌋

/-- `getQualityStatus` from `src/utils/helpers.js`:
`snr >= 10 → "Excellent"`, `snr >= 5 → "Good"`, `snr >= 0 → "Fair"`,
otherwise `"Poor"`.  The argument is a JS number so that the behaviour
on NaN is captured: every comparison with NaN is false. -/
def getQualityStatus (snr : JSNum) : String :=
  if jge snr (some 10) then "Excellent"
  else if jge snr (some 5) then "Good"
  else if jge snr (some 0) then "Fair"
  else "Poor"

/-- `generateGuidance` from `src/utils/helpers.js`, with the exact branch
structure of the source; comparisons with NaN are false. -/
def generateGuidance (snr pi stability : JSNum) : String :=
  if jlt snr (some 0) then
    if jlt pi (some (3/10)) then "Cover camera completely with finger"
    else "Adjust finger placement"
  else if jge snr (some 0) && jlt snr (some 5) then
    if jlt pi (some 1) then "Press finger more firmly"
    else if jgt pi (some 15) then "Reduce finger pressure slightly"
    else if jlt stability (some (1/2)) then "Hold finger still"
    else "Adjusting... hold steady"
  else if jge snr (some 5) && jlt snr (some 10) then
    "Good signal - hold steady"
  else "Excellent signal!"

/-- `SignalProcessor.calculateStability`, with the instance field
`previousVariance` threaded explicitly: given the current variance and the
stored previous variance, return the stability ratio and the new stored
previous variance.  Mirrors `src/SignalProcessor.js` lines 129–141. -/
def calculateStability (currentVariance previousVariance : ℝ) : ℝ × ℝ :=
  if previousVariance = 0 then
    (1, currentVariance)
  else
    (min currentVariance previousVariance /
      (max currentVariance previousVariance + 1/10000000000),
     currentVariance)

/-- The slope of the least-squares line in `detrend`
(`src/utils/detrend.js`).  The source builds `x = [0, …, n]` (one unused
trailing element) and accumulates `sx, sy, sxy, sxx` in a loop over
`i = 0 … n-1`; the loop accumulations are rendered as range sums.
`slope = (n·sxy − sx·sy) / (n·sxx − sx·sx)`. -/
def detrendSlope (y : List ℝ) : ℝ :=
  let n := y.length
  let sx : ℝ := ∑ i in Finset.range n, (i : ℝ)
  let sy : ℝ := ∑ i in Finset.range n, y.getD i 0
  let sxy : ℝ := ∑ i in Finset.range n, (i : ℝ) * y.getD i 0
  let sxx : ℝ := ∑ i in Finset.range n, (i : ℝ) * (i : ℝ)
  ((n : ℝ) * sxy - sx * sy) / ((n : ℝ) * sxx - sx * sx)

/-- The intercept of the least-squares line in `detrend`:
`intercept = my − slope·mx` with `my = sy/n`, `mx = sx/n`. -/
def detrendIntercept (y : List ℝ) : ℝ :=
  let n := y.length
  (∑ i in Finset.range n, y.getD i 0) / n
    - detrendSlope y * ((∑ i in Finset.range n, (i : ℝ)) / n)

/-- `detrend` from `src/utils/detrend.js`: least-squares linear fit
removed pointwise, `detrended[i] = y[i] − (intercept + slope·i)`.
The function is total — the source contains no length check and no
error path; it always returns an array of the input's length (for
`n = 1` the JS code divides `0/0` and returns an array of NaN entries;
for `n = 0` it returns an empty array). -/
def detrend (y : List ℝ) : List ℝ :=
  (List.range y.length).map fun i =>
    y.getD i 0 - (detrendIntercept y + detrendSlope y * i)

/-- Constructor options for `SignalProcessor` (`src/SignalProcessor.js`
lines 19–28): each field may be absent (`undefined`). -/
structure SignalOptions where
  windowLength : Option ℕ
  sampleRate : Option ℝ
  cardiacBandLow : Option ℝ
  cardiacBandHigh : Option ℝ
  fftSize : Option ℕ

/-- The state of a constructed `SignalProcessor`. -/
structure SPConfig where
  windowLength : ℕ
  sampleRate : ℝ
  cardiacBandLow : ℝ
  cardiacBandHigh : ℝ
  fftSize : ℕ
  previousVariance : ℝ
  qualityFrameCount : ℕ

/-- JavaScript `options.x || default` for a numeric option: `undefined`
and the falsy number `0` yield the default. -/
def orDefaultNat (v : Option ℕ) (d : ℕ) : ℕ :=
  match v with
  | none => d
  | some x => if x = 0 then d else x

/-- JavaScript `options.x || default` for a real-valued option. -/
def orDefaultReal (v : Option ℝ) (d : ℝ) : ℝ :=
  match v with
  | none => d
  | some x => if x = 0 then d else x

/-- The `SignalProcessor` constructor (`src/SignalProcessor.js` lines
19–28): merge the options with the defaults
`(300, 60, 0.75, 4.0, 256)` via `||`, and zero the two state fields.
The constructor is a total function: the source performs no validation
and has no failure path. -/
def signalProcessorInit (o : SignalOptions) : SPConfig :=
  ⟨orDefaultNat o.windowLength 300, orDefaultReal o.sampleRate 60,
   orDefaultReal o.cardiacBandLow (3/4), orDefaultReal o.cardiacBandHigh 4,
   orDefaultNat o.fftSize 256, 0, 0⟩

/-- `SignalProcessor.reset` (`src/SignalProcessor.js` lines 146–149). -/
def signalProcessorReset (c : SPConfig) : SPConfig :=
  { c with previousVariance := 0, qualityFrameCount := 0 }

/-- The heart-rate / inter-beat-interval fragment of
`SignalProcessor.process` (`src/SignalProcessor.js` lines 50–56 and 78):
`heartRate = peakFrequency * 60` (unrounded), `ibi = Math.round(60000 /
heartRate)` when `0 < heartRate < 300` else `0`, and the emitted
`heartRate` field is `Math.round(heartRate)`.  Returns
`(emitted heartRate, emitted ibi)`. -/
def processRate (peakFrequency : ℝ) : ℤ × ℤ :=
  let heartRate := peakFrequency * 60
  let ibi := if 0 < heartRate ∧ heartRate < 300
    then jsRound (60000 / heartRate) else 0
  (jsRound heartRate, ibi)

/-- Result record of `computeFFT` (`src/utils/fft.js`). -/
structure FFTResult where
  psd : List ℝ
  fftSize : ℕ
  sampleRate : ℝ
  freqResolution : ℝ

/-- `computeFFT` from `src/utils/fft.js`: the signal is zero-padded (or
truncated) to `fftSize` samples, the complex discrete Fourier transform
is taken (the bundled fft.js radix-2 FFT computes exactly the DFT
`X_k = Σ_j x_j · e^(-2πi·jk/N)`, here written out in real and imaginary
parts), and the PSD is `|X_k|²` for the first `fftSize/2` bins, with
`freqResolution = sampleRate / fftSize`. -/
def computeFFT (signal : List ℝ) (fftSize : ℕ) (sampleRate : ℝ) :
    FFTResult :=
  let padded : ℕ → ℝ := fun i =>
    if i < min signal.length fftSize then signal.getD i 0 else 0
  let re : ℕ → ℝ := fun k => ∑ j in Finset.range fftSize,
    padded j * Real.cos (2 * Real.pi * k * j / fftSize)
  let im : ℕ → ℝ := fun k => -∑ j in Finset.range fftSize,
    padded j * Real.sin (2 * Real.pi * k * j / fftSize)
  let psd := (List.range (fftSize / 2)).map fun i =>
    re i * re i + im i * im i
  ⟨psd, fftSize, sampleRate, sampleRate / fftSize⟩

/-- Accumulator of the single loop in `calculateSNRFromPSD`
(`src/utils/fft.js` lines 192–209): `totalPower`, `signalPower`,
`maxPower`, `peakIdx`. -/
structure SNRAccum where
  totalPower : ℝ
  signalPower : ℝ
  maxPower : ℝ
  peakIdx : ℕ

/-- One iteration of the loop in `calculateSNRFromPSD`:
`totalPower += psd[i]`; if `i` is inside the band, `signalPower += psd[i]`
and the running peak is updated when `psd[i] > maxPower`. -/
def snrStep (psd : List ℝ) (low high : ℤ) (acc : SNRAccum) (i : ℕ) :
    SNRAccum :=
  let p := psd.getD i 0
  let tp := acc.totalPower + p
  if low ≤ (i : ℤ) ∧ (i : ℤ) ≤ high then
    let sp := acc.signalPower + p
    if acc.maxPower < p then ⟨tp, sp, p, i⟩
    else ⟨tp, sp, acc.maxPower, acc.peakIdx⟩
  else ⟨tp, acc.signalPower, acc.maxPower, acc.peakIdx⟩

/-- Result record of `calculateSNRFromPSD`. -/
structure SNRResult where
  snr_dB : ℝ
  peakIdx : ℕ
  peakFrequency : ℝ
  signalPower : ℝ
  noisePower : ℝ
  totalPower : ℝ

/-- `calculateSNRFromPSD` from `src/utils/fft.js`:
`low = ⌊cardiacBandLow/freqResolution⌋`,
`high = ⌈cardiacBandHigh/freqResolution⌉`; one loop over bins
`i = 1 … psd.length−1` (DC bin 0 skipped) accumulates total power,
in-band signal power and the in-band peak; `noisePower = totalPower −
signalPower` (no clamping in the source);
`snr_dB = 10·log10((signalPower + ε)/(noisePower + ε))`, `ε = 10⁻¹⁰`;
`peakFrequency = peakIdx · freqResolution`. -/
def calculateSNRFromPSD (psd : List ℝ)
    (freqResolution cardiacBandLow cardiacBandHigh : ℝ) : SNRResult :=
  let low : ℤ := ⌊cardiacBandLow / freqResolution⌋
  let high : ℤ := ⌈cardiacBandHigh / freqResolution⌉
  let acc := (List.range' 1 (psd.length - 1)).foldl
    (snrStep psd low high) ⟨0, 0, 0, 0⟩
  let noisePower := acc.totalPower - acc.signalPower
  let snr_dB := 10 * Real.logb 10
    ((acc.signalPower + 1/10000000000) / (noisePower + 1/10000000000))
  ⟨snr_dB, acc.peakIdx, (acc.peakIdx : ℝ) * freqResolution,
   acc.signalPower, noisePower, acc.totalPower⟩

/-- `windowMean` from `src/utils/helpers.js`: arithmetic mean. -/
def windowMean (l : List ℝ) : ℝ :=
  (∑ i in Finset.range l.length, l.getD i 0) / l.length

/-- Result of `SignalProcessor.calculatePerfusionIndex`. -/
structure PIResult where
  pi : ℝ
  variance : ℝ

/-- `SignalProcessor.calculatePerfusionIndex`
(`src/SignalProcessor.js` lines 99–121): `dc` = mean of the raw window,
`variance` = mean square of the detrended window, `ac = √variance`,
`pi = ac / (dc + 10⁻¹⁰) · 100`. -/
def calculatePerfusionIndex (rawSignal detrendedSignal : List ℝ) :
    PIResult :=
  let n := rawSignal.length
  let dc := (∑ i in Finset.range n, rawSignal.getD i 0) / n
  let variance := (∑ i in Finset.range n,
    detrendedSignal.getD i 0 * detrendedSignal.getD i 0) / n
  let ac := Real.sqrt variance
  ⟨ac / (dc + 1/10000000000) * 100, variance⟩

/-- The per-window quality metrics record emitted by
`SignalProcessor.process` (`src/SignalProcessor.js` lines 75–88). -/
structure Metrics where
  snr_dB : ℝ
  perfusionIndex : ℝ
  heartRate : ℤ
  ibi : ℤ
  signalStability : ℝ
  qualityStatus : String
  guidanceMessage : String
  qualityFrameCount : ℕ
  signalPower : ℝ
  noisePower : ℝ
  peakFrequency : ℝ

/-- `SignalProcessor.process` (`src/SignalProcessor.js` lines 37–89),
with the mutable instance state (`previousVariance`,
`qualityFrameCount`) threaded explicitly: FFT → band SNR → heart rate
and IBI (`processRate`) → perfusion index → stability → classification
→ guidance → good-quality frame counter. -/
def process (c : SPConfig) (rawSignal detrendedSignal : List ℝ) :
    Metrics × SPConfig :=
  let fftResult := computeFFT detrendedSignal c.fftSize c.sampleRate
  let snrResult := calculateSNRFromPSD fftResult.psd
    fftResult.freqResolution c.cardiacBandLow c.cardiacBandHigh
  let hrIbi := processRate snrResult.peakFrequency
  let piResult := calculatePerfusionIndex rawSignal detrendedSignal
  let st := calculateStability piResult.variance c.previousVariance
  let qualityStatus := getQualityStatus (some snrResult.snr_dB)
  let guidanceMessage := generateGuidance (some snrResult.snr_dB)
    (some piResult.pi) (some st.1)
  let qfc := if 5 ≤ snrResult.snr_dB
    then c.qualityFrameCount + c.windowLength else c.qualityFrameCount
  (⟨snrResult.snr_dB, piResult.pi, hrIbi.1, hrIbi.2, st.1, qualityStatus,
    guidanceMessage, qfc, snrResult.signalPower, snrResult.noisePower,
    snrResult.peakFrequency⟩,
   { c with previousVariance := st.2, qualityFrameCount := qfc })

/-- The state of a `PPGMonitor` relevant to the per-frame loop
(`src/PPGMonitor.js`): the signal-processor state, the raw sample
buffer `acdc`, the current AC window `ac`, its stored mean `acWindow`,
the streamed per-sample value `acFrame`, the frame counter `nFrame`,
the duty-cycle flag `isSignal`, and the last emitted metrics
(`none` for the constructor's `"Initializing"` placeholder). -/
structure MonitorState where
  config : SPConfig
  acdc : List ℝ
  ac : List ℝ
  acWindow : ℝ
  acFrame : ℝ
  nFrame : ℕ
  isSignal : ℕ
  currentMetrics : Option Metrics

/-- The state set up by the `PPGMonitor` constructor with default
options (`src/PPGMonitor.js` lines 36–56): both buffers filled with
`0.5`, `acFrame = acWindow = 0.008`, `nFrame = 0`, `isSignal = 0`. -/
def initialMonitorState : MonitorState :=
  ⟨signalProcessorInit ⟨none, none, none, none, none⟩,
   List.replicate 300 (1/2), List.replicate 300 (1/2),
   1/125, 1/125, 0, 0, none⟩

/-- `PPGMonitor.computeFrame` (`src/PPGMonitor.js` lines 175–282), as a
step function on the monitor state.  The camera/canvas red-channel
extraction is external I/O, so the normalised sample `xMean` is a
parameter; UI and callback plumbing is dropped, and the
`onQualityUpdate` emission is the optional `Metrics` output.  The first
`DURATION + 1 = 101` frames are skipped (`nFrame > 100` guard); on a
window boundary (`nFrame % windowLength == 0`) the duty cycle chooses
the Active branch iff `⌊(nFrame / windowLength) / 100⌋ % 2 == 0` (on a
boundary the JS real division `nFrame / windowLength` is exact, hence
the natural-number division here); the Active branch detrends, stores
the window mean, runs `process` and emits the new metrics; the Hold
branch replaces the AC window by the constant `acWindow` and emits
nothing; every processed frame streams
`acFrame = ac[nFrame % windowLength]`. -/
def computeFrame (st : MonitorState) (xMean : ℝ) :
    MonitorState × Option Metrics :=
  if 100 < st.nFrame then
    let wl := st.config.windowLength
    let acdc := st.acdc.set (st.nFrame % wl) xMean
    if st.nFrame % wl = 0 then
      let windowNum := st.nFrame / wl
      if (windowNum / 100) % 2 = 0 then
        let ac := detrend acdc
        let acWindow := windowMean ac
        let mc := process st.config acdc ac
        let acFrame := ac.getD (st.nFrame % wl) 0
        ({ st with
            config := mc.2,
            acdc := acdc,
            ac := ac,
            acWindow := acWindow,
            acFrame := acFrame,
            nFrame := st.nFrame + 1,
            isSignal := 1,
            currentMetrics := some mc.1 }, some mc.1)
      else
        let ac := List.replicate wl st.acWindow
        let acFrame := ac.getD (st.nFrame % wl) 0
        ({ st with
            acdc := acdc,
            ac := ac,
            acFrame := acFrame,
            nFrame := st.nFrame + 1,
            isSignal := 0 }, none)
    else
      let acFrame := st.ac.getD (st.nFrame % wl) 0
      ({ st with
          acdc := acdc,
          acFrame := acFrame,
          nFrame := st.nFrame + 1 }, none)
  else
    ({ st with nFrame := st.nFrame + 1 }, none)

end

end PPG

namespace PPG

/-- C8: `getQualityStatus` maps snr to exactly the intervals
`[10,∞) → Excellent`, `[5,10) → Good`, `[0,5) → Fair`, `(-∞,0) → Poor`,
and in particular `10 → Excellent`, `9.999 → Good`, `5 → Good`,
`4.999 → Fair`, `0 → Fair`, `-0.001 → Poor`. -/
theorem getQualityStatus_boundaries :
    (∀ s : ℝ, (getQualityStatus (some s) = "Excellent" ↔ 10 ≤ s) ∧
      (getQualityStatus (some s) = "Good" ↔ 5 ≤ s ∧ s < 10) ∧
      (getQualityStatus (some s) = "Fair" ↔ 0 ≤ s ∧ s < 5) ∧
      (getQualityStatus (some s) = "Poor" ↔ s < 0)) ∧
    getQualityStatus (some 10) = "Excellent" ∧
    getQualityStatus (some (9999/1000)) = "Good" ∧
    getQualityStatus (some 5) = "Good" ∧
    getQualityStatus (some (4999/1000)) = "Fair" ∧
    getQualityStatus (some 0) = "Fair" ∧
    getQualityStatus (some (-1/1000)) = "Poor" := by
  have key : ∀ s : ℝ, (getQualityStatus (some s) = "Excellent" ↔ 10 ≤ s) ∧
      (getQualityStatus (some s) = "Good" ↔ 5 ≤ s ∧ s < 10) ∧
      (getQualityStatus (some s) = "Fair" ↔ 0 ≤ s ∧ s < 5) ∧
      (getQualityStatus (some s) = "Poor" ↔ s < 0) := by
    intro s
    simp only [getQualityStatus, jge, decide_eq_true_eq]
    split_ifs with h1 h2 h3 <;>
      refine ⟨?_, ?_, ?_, ?_⟩ <;> simp <;> first
        | linarith
        | (intro h; linarith)
        | (constructor <;> linarith)
  refine ⟨key, ?_, ?_, ?_, ?_, ?_, ?_⟩
  · exact ((key 10).1).2 (by norm_num)
  · exact ((key _).2.1).2 (by norm_num)
  · exact ((key 5).2.1).2 (by norm_num)
  · exact ((key _).2.2.1).2 (by norm_num)
  · exact ((key 0).2.2.1).2 (by norm_num)
  · exact ((key _).2.2.2).2 (by norm_num)

/-- C1 (counterexample): with `snr_dB = NaN` (and, e.g., `pi = 1`,
`stability = 1`), the quality classification is coerced to `"Poor"`, but
the guidance message is NOT an "insufficient signal" message: every
NaN comparison is false, so `generateGuidance` falls through all branches
and returns `"Excellent signal!"`. -/
theorem guidance_nan_counterexample :
    getQualityStatus none = "Poor" ∧
    generateGuidance none (some 1) (some 1) = "Excellent signal!" := by
  constructor
  · simp [getQualityStatus, jge]
  · simp [generateGuidance, jlt, jge]

/-- C1 (amended): when a NaN `snr_dB` propagates into the quality
computation, the classification is coerced to `"Poor"` (all NaN
comparisons fail, so the final `else` branch is taken), but the guidance
is not an insufficient-signal message: for every perfusion index and
stability value, `generateGuidance` falls through to the
`"Excellent signal!"` branch. -/
theorem guidance_nan_fallthrough (pi stability : JSNum) :
    getQualityStatus none = "Poor" ∧
    generateGuidance none pi stability = "Excellent signal!" := by
  constructor
  · simp [getQualityStatus, jge]
  · simp [generateGuidance, jlt, jge]

/-- C4 (counterexample): the second call to `calculateStability` with the
same variance `v = 1` does not return exactly `1.0`: the first call
(previous variance `0`) returns `1` and stores `1`; the second call
returns `1 / (1 + 10⁻¹⁰) ≠ 1`. -/
theorem stability_second_call_counterexample :
    (calculateStability 1 0).1 = 1 ∧ (calculateStability 1 0).2 = 1 ∧
    (calculateStability 1 (calculateStability 1 0).2).1 =
      1 / (1 + 1/10000000000) ∧
    (calculateStability 1 (calculateStability 1 0).2).1 ≠ 1 := by
  have h0 : calculateStability 1 0 = (1, 1) := by
    simp [calculateStability]
  refine ⟨by rw [h0], by rw [h0], ?_, ?_⟩
  · rw [h0]
    simp only [calculateStability]
    norm_num
  · rw [h0]
    simp only [calculateStability]
    norm_num

/-- C4 (amended): the first call to `calculateStability` (stored previous
variance `0`) with any variance `v > 0` returns exactly `1.0` and seeds
`previousVariance` with `v`; every subsequent call (previous variance
nonzero) returns `min(cur, prev) / (max(cur, prev) + 10⁻¹⁰)` and stores
`cur` — in particular a second call with the same `v` returns
`v / (v + 10⁻¹⁰)`, which is strictly less than `1`, not exactly `1.0`. -/
theorem stability_first_and_subsequent (v : ℝ) (hv : 0 < v) :
    calculateStability v 0 = (1, v) ∧
    (∀ cur prev : ℝ, prev ≠ 0 → calculateStability cur prev =
      (min cur prev / (max cur prev + 1/10000000000), cur)) ∧
    (calculateStability v v).1 = v / (v + 1/10000000000) ∧
    (calculateStability v v).1 < 1 := by
  refine ⟨by simp [calculateStability], ?_, ?_, ?_⟩
  · intro cur prev hp
    simp [calculateStability, hp]
  · simp [calculateStability, ne_of_gt hv]
  · have hne : v ≠ 0 := ne_of_gt hv
    simp only [calculateStability, hne, if_false, min_self, max_self]
    rw [div_lt_one (by linarith)]
    linarith

/-- C4 witness: instantiation of `stability_first_and_subsequent`
at `v = 2`. -/
theorem stability_first_and_subsequent_witness :
    (0:ℝ) < 2 ∧
    (calculateStability 2 0 = (1, 2) ∧
    (∀ cur prev : ℝ, prev ≠ 0 → calculateStability cur prev =
      (min cur prev / (max cur prev + 1/10000000000), cur)) ∧
    (calculateStability 2 2).1 = 2 / (2 + 1/10000000000) ∧
    (calculateStability 2 2).1 < 1) :=
  ⟨by norm_num, stability_first_and_subsequent 2 (by norm_num)⟩

/-- C10: the "first call" behaviour of `calculateStability` is keyed on
`previousVariance = 0`, not on a call count: calling with current
variance `0` while the stored previous variance is `0` returns `1.0` and
leaves the stored variance at `0`, so the following call is again treated
as a first call and returns `1.0` whatever its variance. -/
theorem stability_zero_variance_reseed :
    (∀ c : SPConfig, (signalProcessorReset c).previousVariance = 0) ∧
    calculateStability 0 0 = (1, 0) ∧
    (∀ v : ℝ, (calculateStability v (calculateStability 0 0).2).1 = 1) := by
  have h0 : calculateStability 0 0 = (1, 0) := by simp [calculateStability]
  exact ⟨fun c => rfl, h0, fun v => by rw [h0]; simp [calculateStability]⟩

/-- C5 (counterexample): with peak frequency `15/64` Hz (bin 1 at the
default resolution `60/256` Hz), the raw rate is `14.0625` BPM; the code
emits `heartRate = 14` but `ibi = round(60000 / 14.0625) = 4267`, which
differs from `round(60000 / heartRate) = round(60000 / 14) = 4286`
required by the claim. -/
theorem processRate_counterexample :
    processRate (15/64) = (14, 4267) ∧
    jsRound (60000 / (14:ℝ)) = 4286 ∧ (4267:ℤ) ≠ 4286 := by
  have h1 : jsRound ((15/64 : ℝ) * 60) = 14 := by
    simp only [jsRound]
    rw [Int.floor_eq_iff]
    norm_num
  have h2 : jsRound ((60000:ℝ) / ((15/64 : ℝ) * 60)) = 4267 := by
    simp only [jsRound]
    rw [Int.floor_eq_iff]
    norm_num
  have h3 : jsRound ((60000:ℝ) / 14) = 4286 := by
    simp only [jsRound]
    rw [Int.floor_eq_iff]
    norm_num
  refine ⟨?_, h3, by norm_num⟩
  show (jsRound ((15/64:ℝ) * 60),
      if 0 < (15/64:ℝ) * 60 ∧ (15/64:ℝ) * 60 < 300
      then jsRound (60000 / ((15/64:ℝ) * 60)) else 0) = (14, 4267)
  rw [if_pos (by constructor <;> norm_num), h1, h2]

/-- C5 (amended): for every processed window, the emitted `heartRate` is
`round(peakFrequency · 60)`, and the emitted `ibi` is computed from the
UNROUNDED rate: it equals `round(60000 / (peakFrequency · 60))` whenever
`0 < peakFrequency · 60 < 300`, and `0` otherwise — the guard and the
division both use `peakFrequency · 60`, not the rounded emitted
`heartRate`. -/
theorem process_rate_ibi_characterization (c : SPConfig)
    (raw det : List ℝ) :
    (process c raw det).1.heartRate
      = jsRound ((process c raw det).1.peakFrequency * 60) ∧
    (process c raw det).1.ibi
      = if 0 < (process c raw det).1.peakFrequency * 60 ∧
            (process c raw det).1.peakFrequency * 60 < 300
        then jsRound (60000 / ((process c raw det).1.peakFrequency * 60))
        else 0 := by
  constructor <;> rfl

/-- Helper: reading the `i`-th element of `(List.range n).map f`. -/
lemma getD_range_map (f : ℕ → ℝ) {n i : ℕ} (h : i < n) :
    ((List.range n).map f).getD i 0 = f i := by
  have hl : i < ((List.range n).map f).length := by simpa using h
  rw [List.getD_eq_getElem _ _ hl]
  simp

/-- Helper: Gauss sum over `Finset.range`, cast to the reals. -/
lemma sumRangeId (n : ℕ) :
    ∑ i in Finset.range n, (i : ℝ) = n * (n - 1) / 2 := by
  induction n with
  | zero => simp
  | succ k ih => rw [Finset.sum_range_succ, ih]; push_cast; ring

/-- Helper: sum of squares over `Finset.range`, cast to the reals. -/
lemma sumRangeSq (n : ℕ) :
    ∑ i in Finset.range n, (i : ℝ) * (i : ℝ)
      = n * (n - 1) * (2 * n - 1) / 6 := by
  induction n with
  | zero => simp
  | succ k ih => rw [Finset.sum_range_succ, ih]; push_cast; ring

/-- C3 (counterexample): constructing a `SignalProcessor` with
`windowLength = 1` and `fftSize = 3` succeeds — the constructor stores
both values unchanged even though `1 < 2` and `3` is not a power of two;
no `ConfigurationError` exists in the code. -/
theorem constructor_no_validation_counterexample :
    signalProcessorInit ⟨some 1, none, none, none, some 3⟩
      = ⟨1, 60, 3/4, 4, 3, 0, 0⟩ ∧
    ¬ (2 : ℕ) ≤ 1 ∧ (∀ k : ℕ, (3 : ℕ) ≠ 2 ^ k) := by
  refine ⟨rfl, by norm_num, fun k => ?_⟩
  match k with
  | 0 => decide
  | 1 => decide
  | (m + 2) =>
    have h1 : 1 ≤ 2 ^ m := Nat.one_le_two_pow
    have : 2 ^ (m + 2) = 2 ^ m * 4 := by ring
    omega

/-- C3 (amended): construction never validates and never fails: the
constructor is a total function that stores the supplied `windowLength`
and `fftSize` verbatim (JavaScript `||` replaces only the falsy value `0`
— and an absent option — by the defaults 300 resp. 256) and zeroes the
state fields; in particular no check of `windowLength ≥ 2` or of
`fftSize` being a power of two happens at construction or anywhere
else. -/
theorem constructor_total_characterization (wl fs : ℕ) :
    signalProcessorInit ⟨some wl, none, none, none, some fs⟩
      = ⟨if wl = 0 then 300 else wl, 60, 3/4, 4,
         if fs = 0 then 256 else fs, 0, 0⟩ := by
  simp [signalProcessorInit, orDefaultNat, orDefaultReal]

/-- C2 (counterexample): `detrend` on a window of fewer than 2 samples
does not fail — there is no error path in the source.  It returns a
result: on the one-sample window `[5]` a list of length 1 (whose sole
entry is NaN in the JS float semantics, from the `0/0` slope), and on
the empty window the empty list. -/
theorem detrend_short_window_counterexample :
    (detrend [(5 : ℝ)]).length = 1 ∧ detrend ([] : List ℝ) = [] := by
  constructor
  · simp [detrend]
  · simp [detrend]

/-- C2 (amended): `detrend` never fails: for every input window —
including windows of fewer than 2 samples — it returns a list of the
same length as the input, and the scheduler therefore always proceeds
with the remaining pipeline stages for that window. -/
theorem detrend_total_length (y : List ℝ) :
    (detrend y).length = y.length := by
  simp [detrend]

/-- C6: on an exactly linear input `y i = a + b·i` with `n ≥ 2` samples,
`detrend` returns the zero vector at every index (exactly, in real
arithmetic — a fortiori within floating tolerance). -/
theorem detrend_linear_zero (n : ℕ) (a b : ℝ) (hn : 2 ≤ n) :
    detrend ((List.range n).map fun i : ℕ => a + b * (i : ℝ))
      = (List.range n).map fun _ => (0 : ℝ) := by
  have hylen : ((List.range n).map fun i : ℕ => a + b * (i : ℝ)).length = n := by
    simp
  have hm : (2 : ℝ) ≤ (n : ℝ) := by exact_mod_cast hn
  have hn0 : (0 : ℝ) < (n : ℝ) := by linarith
  have h1 : ∑ i in Finset.range n,
      ((List.range n).map fun j : ℕ => a + b * (j : ℝ)).getD i 0
      = (n : ℝ) * a + b * ((n : ℝ) * ((n : ℝ) - 1) / 2) := by
    have : ∑ i in Finset.range n,
        ((List.range n).map fun j : ℕ => a + b * (j : ℝ)).getD i 0
        = ∑ i in Finset.range n, (a + b * (i : ℝ)) :=
      Finset.sum_congr rfl fun i hi => by
        rw [getD_range_map _ (Finset.mem_range.mp hi)]
    rw [this, Finset.sum_add_distrib, Finset.sum_const, Finset.card_range,
      nsmul_eq_mul, ← Finset.mul_sum, sumRangeId]
  have h2 : ∑ i in Finset.range n,
      (i : ℝ) * ((List.range n).map fun j : ℕ => a + b * (j : ℝ)).getD i 0
      = a * ((n : ℝ) * ((n : ℝ) - 1) / 2)
        + b * ((n : ℝ) * ((n : ℝ) - 1) * (2 * (n : ℝ) - 1) / 6) := by
    have e : ∑ i in Finset.range n,
        (i : ℝ) * ((List.range n).map fun j : ℕ => a + b * (j : ℝ)).getD i 0
        = ∑ i in Finset.range n, (a * (i : ℝ) + b * ((i : ℝ) * (i : ℝ))) :=
      Finset.sum_congr rfl fun i hi => by
        rw [getD_range_map _ (Finset.mem_range.mp hi)]; ring
    rw [e, Finset.sum_add_distrib, ← Finset.mul_sum, ← Finset.mul_sum,
      sumRangeId, sumRangeSq]
  have hslope : detrendSlope ((List.range n).map fun i : ℕ => a + b * (i : ℝ))
      = b := by
    simp only [detrendSlope, List.length_map, List.length_range]
    rw [h1, h2, sumRangeId, sumRangeSq, div_eq_iff]
    · ring
    · have key : (n : ℝ) * ((n : ℝ) * ((n : ℝ) - 1) * (2 * (n : ℝ) - 1) / 6)
          - (n : ℝ) * ((n : ℝ) - 1) / 2 * ((n : ℝ) * ((n : ℝ) - 1) / 2)
          = (n : ℝ) * (n : ℝ) * ((n : ℝ) - 1) * ((n : ℝ) + 1) / 12 := by
        ring
      rw [key]
      have hp1 : (0 : ℝ) < (n : ℝ) - 1 := by linarith
      have hp2 : (0 : ℝ) < (n : ℝ) + 1 := by linarith
      positivity
  have hintercept :
      detrendIntercept ((List.range n).map fun i : ℕ => a + b * (i : ℝ))
        = a := by
    simp only [detrendIntercept, List.length_map, List.length_range]
    rw [h1, sumRangeId, hslope]
    field_simp
    ring
  simp only [detrend, List.length_map, List.length_range, hslope, hintercept]
  refine List.map_congr_left fun i hi => ?_
  rw [getD_range_map _ (List.mem_range.mp hi)]
  ring

/-- C6 witness: the linear window `[1, 3]` (`n = 2`, `a = 1`, `b = 2`)
detrends to the zero vector. -/
theorem detrend_linear_zero_witness :
    2 ≤ 2 ∧ detrend ((List.range 2).map fun i : ℕ => 1 + 2 * (i : ℝ))
      = (List.range 2).map fun _ => (0 : ℝ) :=
  ⟨le_refl 2, detrend_linear_zero 2 1 2 (le_refl 2)⟩

/-- Helper: the loop step preserves `totalPower += psd[i]`. -/
lemma snrStep_totalPower (psd : List ℝ) (low high : ℤ) (acc : SNRAccum)
    (i : ℕ) :
    (snrStep psd low high acc i).totalPower
      = acc.totalPower + psd.getD i 0 := by
  simp only [snrStep]
  split_ifs <;> rfl

/-- Helper: the loop step adds `psd[i]` to `signalPower` exactly when
`i` lies in the band. -/
lemma snrStep_signalPower (psd : List ℝ) (low high : ℤ) (acc : SNRAccum)
    (i : ℕ) :
    (snrStep psd low high acc i).signalPower
      = acc.signalPower
        + (if low ≤ (i : ℤ) ∧ (i : ℤ) ≤ high then psd.getD i 0 else 0) := by
  simp only [snrStep]
  split_ifs <;> simp

/-- Helper: the total power accumulated by the loop is the sum of
`psd[i]` over the iterated indices. -/
lemma foldl_snr_totalPower (psd : List ℝ) (low high : ℤ) (l : List ℕ) :
    ∀ acc : SNRAccum, (l.foldl (snrStep psd low high) acc).totalPower
      = acc.totalPower + (l.map fun i => psd.getD i 0).sum := by
  induction l with
  | nil => intro acc; simp
  | cons i t ih =>
    intro acc
    simp only [List.foldl_cons, List.map_cons, List.sum_cons]
    rw [ih, snrStep_totalPower]
    ring

/-- Helper: the signal power accumulated by the loop is the sum of the
in-band `psd[i]` over the iterated indices. -/
lemma foldl_snr_signalPower (psd : List ℝ) (low high : ℤ) (l : List ℕ) :
    ∀ acc : SNRAccum, (l.foldl (snrStep psd low high) acc).signalPower
      = acc.signalPower + (l.map fun i : ℕ =>
          if low ≤ (i : ℤ) ∧ (i : ℤ) ≤ high then psd.getD i 0 else 0).sum := by
  induction l with
  | nil => intro acc; simp
  | cons i t ih =>
    intro acc
    simp only [List.foldl_cons, List.map_cons, List.sum_cons]
    rw [ih, snrStep_signalPower]
    ring

/-- Helper: a list sum over `range' m k` is a `Finset.Ico` sum. -/
lemma sum_range_map_Ico (f : ℕ → ℝ) :
    ∀ k m : ℕ, ((List.range' m k).map f).sum
      = ∑ i in Finset.Ico m (m + k), f i := by
  intro k
  induction k with
  | zero => intro m; simp
  | succ k ihk =>
    intro m
    rw [List.range'_succ, List.map_cons, List.sum_cons, ihk (m + 1)]
    have hb : m + 1 + k = m + (k + 1) := by omega
    rw [hb, Finset.sum_eq_sum_Ico_succ_bot (by omega : m < m + (k + 1))]

/-- Helper: `getD` on a list of zeros is zero. -/
lemma getD_replicate_zero (k i : ℕ) :
    (List.replicate k (0 : ℝ)).getD i 0 = 0 := by
  rcases lt_or_ge i k with h | h
  · rw [List.getD_eq_getElem _ _ (by simpa using h)]
    simp
  · rw [List.getD_eq_default _ _ (by simpa using h)]

/-- Helper: the total power computed by `calculateSNRFromPSD` is the sum
of the PSD bins `1 … psd.length − 1`. -/
lemma calculateSNR_totalPower (psd : List ℝ) (f l h : ℝ) :
    (calculateSNRFromPSD psd f l h).totalPower
      = ∑ i in Finset.Ico 1 psd.length, psd.getD i 0 := by
  simp only [calculateSNRFromPSD]
  rw [foldl_snr_totalPower, sum_range_map_Ico]
  rcases Nat.eq_zero_or_pos psd.length with hz | hz
  · rw [hz]
    simp
  · have hb : 1 + (psd.length - 1) = psd.length := by omega
    rw [hb, zero_add]

/-- Helper: the signal power computed by `calculateSNRFromPSD` is the
in-band sum of the PSD bins `1 … psd.length − 1`. -/
lemma calculateSNR_signalPower (psd : List ℝ) (f l h : ℝ) :
    (calculateSNRFromPSD psd f l h).signalPower
      = ∑ i in Finset.Ico 1 psd.length,
          if ⌊l / f⌋ ≤ (i : ℤ) ∧ (i : ℤ) ≤ ⌈h / f⌉
          then psd.getD i 0 else 0 := by
  simp only [calculateSNRFromPSD]
  rw [foldl_snr_signalPower, sum_range_map_Ico]
  rcases Nat.eq_zero_or_pos psd.length with hz | hz
  · rw [hz]
    simp
  · have hb : 1 + (psd.length - 1) = psd.length := by omega
    rw [hb, zero_add]

/-- C7: `bandSNR` returns
`snr_dB = 10·log10((signalPower + ε)/(noisePower + ε))` with `ε = 10⁻¹⁰`,
where `signalPower` is the sum of the in-band PSD bins,
`totalPower` the sum of all bins `1 … psd.length−1`, and
`noisePower = totalPower − signalPower`; moreover `computeSpectrum` of an
all-zero input is an all-zero PSD, on which `bandSNR` returns exactly
`snr_dB = 0`. -/
theorem bandSNR_formula_and_zero_input :
    (∀ (psd : List ℝ) (f l h : ℝ),
      (calculateSNRFromPSD psd f l h).signalPower
        = (∑ i in Finset.Ico 1 psd.length,
            if ⌊l / f⌋ ≤ (i : ℤ) ∧ (i : ℤ) ≤ ⌈h / f⌉
            then psd.getD i 0 else 0) ∧
      (calculateSNRFromPSD psd f l h).totalPower
        = (∑ i in Finset.Ico 1 psd.length, psd.getD i 0) ∧
      (calculateSNRFromPSD psd f l h).noisePower
        = (calculateSNRFromPSD psd f l h).totalPower
          - (calculateSNRFromPSD psd f l h).signalPower ∧
      (calculateSNRFromPSD psd f l h).snr_dB
        = 10 * Real.logb 10
            (((calculateSNRFromPSD psd f l h).signalPower + 1/10000000000)
              / ((calculateSNRFromPSD psd f l h).noisePower
                  + 1/10000000000))) ∧
    (∀ (n N : ℕ) (sr f l h : ℝ),
      (computeFFT (List.replicate n 0) N sr).psd
        = List.replicate (N / 2) 0 ∧
      (calculateSNRFromPSD (List.replicate (N / 2) 0) f l h).snr_dB = 0) := by
  constructor
  · intro psd f l h
    exact ⟨calculateSNR_signalPower psd f l h,
      calculateSNR_totalPower psd f l h, rfl, rfl⟩
  · intro n N sr f l h
    constructor
    · simp only [computeFFT]
      have hpad : ∀ j : ℕ,
          (if j < min (List.replicate n (0:ℝ)).length N
           then (List.replicate n (0:ℝ)).getD j 0 else 0) = 0 := by
        intro j
        split_ifs with hj
        · exact getD_replicate_zero n j
        · rfl
      have hre : ∀ k : ℕ, (∑ j in Finset.range N,
          (if j < min (List.replicate n (0:ℝ)).length N
           then (List.replicate n (0:ℝ)).getD j 0 else 0)
            * Real.cos (2 * Real.pi * k * j / N)) = 0 := by
        intro k
        refine Finset.sum_eq_zero fun j _ => ?_
        rw [hpad j, zero_mul]
      have him : ∀ k : ℕ, (∑ j in Finset.range N,
          (if j < min (List.replicate n (0:ℝ)).length N
           then (List.replicate n (0:ℝ)).getD j 0 else 0)
            * Real.sin (2 * Real.pi * k * j / N)) = 0 := by
        intro k
        refine Finset.sum_eq_zero fun j _ => ?_
        rw [hpad j, zero_mul]
      have hmap : (List.range (N / 2)).map (fun i : ℕ =>
          (∑ j in Finset.range N,
            (if j < min (List.replicate n (0:ℝ)).length N
             then (List.replicate n (0:ℝ)).getD j 0 else 0)
              * Real.cos (2 * Real.pi * i * j / N))
          * (∑ j in Finset.range N,
            (if j < min (List.replicate n (0:ℝ)).length N
             then (List.replicate n (0:ℝ)).getD j 0 else 0)
              * Real.cos (2 * Real.pi * i * j / N))
          + (-∑ j in Finset.range N,
            (if j < min (List.replicate n (0:ℝ)).length N
             then (List.replicate n (0:ℝ)).getD j 0 else 0)
              * Real.sin (2 * Real.pi * i * j / N))
          * (-∑ j in Finset.range N,
            (if j < min (List.replicate n (0:ℝ)).length N
             then (List.replicate n (0:ℝ)).getD j 0 else 0)
              * Real.sin (2 * Real.pi * i * j / N)))
          = (List.range (N / 2)).map fun _ => (0:ℝ) := by
        refine List.map_congr_left fun i _ => ?_
        rw [hre i, him i]
        ring
      rw [hmap]
      rw [List.map_const']
      rw [List.length_range]
    · have hT := calculateSNR_totalPower (List.replicate (N / 2) 0) f l h
      have hS := calculateSNR_signalPower (List.replicate (N / 2) 0) f l h
      have hT0 : (calculateSNRFromPSD (List.replicate (N / 2) 0) f l h).totalPower = 0 := by
        rw [hT]
        refine Finset.sum_eq_zero fun i _ => getD_replicate_zero _ i
      have hS0 : (calculateSNRFromPSD (List.replicate (N / 2) 0) f l h).signalPower = 0 := by
        rw [hS]
        refine Finset.sum_eq_zero fun i _ => ?_
        split_ifs
        · exact getD_replicate_zero _ i
        · rfl
      have hsnr : (calculateSNRFromPSD (List.replicate (N / 2) 0) f l h).snr_dB
          = 10 * Real.logb 10
            (((calculateSNRFromPSD (List.replicate (N / 2) 0) f l h).signalPower
                + 1/10000000000)
              / ((calculateSNRFromPSD (List.replicate (N / 2) 0) f l h).totalPower
                  - (calculateSNRFromPSD (List.replicate (N / 2) 0) f l h).signalPower
                  + 1/10000000000)) := rfl
      rw [hsnr, hS0, hT0]
      norm_num

/-- C9: at every window boundary (`nFrame > 100` and
`nFrame % windowLength = 0`), with `windowIndex = nFrame / windowLength`
(integer division), the scheduler enters the Active phase
(`isSignal = 1`) iff `⌊windowIndex / 100⌋ % 2 = 0` and the Hold phase
(`isSignal = 0`) otherwise — equivalently, iff `windowIndex % 200 < 100`,
which is the alternation of runs of 100 Active with runs of 100 Hold
windows; a new `QualityMetrics` record is emitted iff the boundary is
Active, and on a Hold boundary nothing is emitted and the stored metrics
are unchanged. -/
theorem scheduler_duty_cycle (st : MonitorState) (x : ℝ)
    (h1 : 100 < st.nFrame)
    (h2 : st.nFrame % st.config.windowLength = 0) :
    ((computeFrame st x).1.isSignal
      = if (st.nFrame / st.config.windowLength / 100) % 2 = 0
        then 1 else 0) ∧
    ((computeFrame st x).2.isSome
      ↔ (st.nFrame / st.config.windowLength / 100) % 2 = 0) ∧
    ((st.nFrame / st.config.windowLength / 100) % 2 = 0
      ↔ (st.nFrame / st.config.windowLength) % 200 < 100) ∧
    ((st.nFrame / st.config.windowLength / 100) % 2 ≠ 0 →
      (computeFrame st x).2 = none ∧
      (computeFrame st x).1.currentMetrics = st.currentMetrics) := by
  simp only [computeFrame]
  rw [if_pos h1, if_pos h2]
  by_cases hp : (st.nFrame / st.config.windowLength / 100) % 2 = 0
  · rw [if_pos hp]
    refine ⟨by rw [if_pos hp], by simp [hp], by omega,
      fun hc => absurd hp hc⟩
  · rw [if_neg hp]
    exact ⟨by rw [if_neg hp], by simp [hp], by omega,
      fun _ => ⟨rfl, rfl⟩⟩

/-- C9 witness: instantiation of `scheduler_duty_cycle` at the default
initial monitor state advanced to frame 300 (an Active boundary:
`windowIndex = 1`, `⌊1/100⌋ % 2 = 0`), with sample `0`. -/
theorem scheduler_duty_cycle_witness :
    100 < ({ initialMonitorState with nFrame := 300 } : MonitorState).nFrame ∧
    ({ initialMonitorState with nFrame := 300 } : MonitorState).nFrame %
      ({ initialMonitorState with
          nFrame := 300 } : MonitorState).config.windowLength = 0 ∧
    ((computeFrame { initialMonitorState with nFrame := 300 } 0).2.isSome ↔
      (({ initialMonitorState with nFrame := 300 } : MonitorState).nFrame /
        ({ initialMonitorState with
            nFrame := 300 } : MonitorState).config.windowLength / 100) % 2
        = 0) := by
  have h1 : 100 <
      ({ initialMonitorState with nFrame := 300 } : MonitorState).nFrame := by
    decide
  have h2 : ({ initialMonitorState with nFrame := 300 } : MonitorState).nFrame %
      ({ initialMonitorState with
          nFrame := 300 } : MonitorState).config.windowLength = 0 := by
    decide
  exact ⟨h1, h2, (scheduler_duty_cycle _ 0 h1 h2).2.1⟩

end PPG
